import Mathlib

/-!
Shallow embedding of the rollout-inference engine in
`examples/additive_manufacturing/sintering_physics/inference.py`.

The embedding covers the per-example autoregressive rollout loop
(lines 197-303 of the source): the sliding position window, the
per-step global-context slicing and zero padding, the prediction
feedback, and the serialization of one JSON record per example.

Modelling conventions:
- A position snapshot (all particles at one time) is a `List P` for an
  abstract per-particle position type `P`; the window
  `current_positions` is a list of snapshots ordered oldest to newest
  (the source stores the same data particle-major as a tensor of shape
  `[particles, seq, dims]`; slicing `[:, 1:]` drops the oldest
  snapshot, `torch.cat` with `next_position.unsqueeze(1)` appends the
  newest).
- The global context is a `List Int` of per-step scalar values (the
  source holds a float tensor of shape `[L, 1]`; no arithmetic is ever
  performed on the values, only slicing, zero padding and
  concatenation, so an abstract numeric carrier is faithful).
- The learned simulator (`model.inference`) is out of scope per the
  spec and is modelled as an opaque function of the data the loop
  passes it: the position window, the graph topology data
  (senders/receivers/counts, opaque type `G`), the particle types and
  the flattened context row.  A Python exception raised by the call is
  modelled as `none`.
- Python statements that raise (`None.to(device)`, `None.shape`,
  `torch.zeros` with a negative dimension, a raising simulator call)
  make the surrounding computation return `none`; an aborted loop
  leaves the file system as already written.
-/

namespace VFGNInference

/-- Source line 87: `INPUT_SEQUENCE_LENGTH = 5`. -/
def INPUT_SEQUENCE_LENGTH : Nat := 5

/-- Source line 88: `PREDICT_LENGTH = 1`. -/
def PREDICT_LENGTH : Nat := 1

/-- Source line 90: `NUM_PARTICLE_TYPES = 3`. -/
def NUM_PARTICLE_TYPES : Nat := 3

/-- Source line 91: `KINEMATIC_PARTICLE_ID = 0` (anchor point). -/
def KINEMATIC_PARTICLE_ID : Nat := 0

/-- Source line 93: `ANCHOR_PLANE_PARTICLE_ID = 1`. -/
def ANCHOR_PLANE_PARTICLE_ID : Nat := 1

/-- Source line 92: `METAL_PARTICLE_ID = 2` (normal particles). -/
def METAL_PARTICLE_ID : Nat := 2

/-- Modelled from the spec: `utils.get_kinematic_mask` (from
`modulus.datapipes.vfgn.utils`, repository code not under `src/`).
Per the spec's data model, a particle is kinematic exactly when its
categorical type equals `KINEMATIC_PARTICLE_ID`; the mask marks those
particles, whose motion should not be overwritten by predictions. -/
def get_kinematic_mask (particle_type : List Nat) : List Bool :=
  particle_type.map (fun t => t == KINEMATIC_PARTICLE_ID)

/-- The black-box learned simulator (`model.inference`, called at
source lines 235-246): window of snapshots, graph topology data,
particle types, flattened context row; `none` models a raised
exception (shape mismatch, device error, ...). -/
def Simulator (P G : Type) : Type :=
  List (List P) → G → List Nat → List Int → Option (List P)

/-- The fields of one `features` element yielded by the dataset
iterator that the rollout loop reads (source lines 156, 197-245):
the position sequence (list of snapshots, oldest first), the particle
types, the optional global context (`step_context`), and the graph
topology data (senders, receivers, per-example counts) bundled
opaquely. -/
structure Features (P G : Type) where
  position : List (List P)
  particle_type : List Nat
  step_context : Option (List Int)
  graph : G
deriving DecidableEq

/-- The loop state of one example's rollout: `current_positions`
(source line 214, the sliding window) and `updated_predictions`
(source line 215, the accumulated predicted snapshots). -/
structure RolloutState (P : Type) where
  current_positions : List (List P)
  updated_predictions : List (List P)
deriving DecidableEq

/-- Source line 211: `num_steps = global_context.shape[0] -
INPUT_SEQUENCE_LENGTH` (Python `range` of a negative count is empty,
matching truncated `Nat` subtraction). -/
def numRolloutSteps (global_context : List Int) : Nat :=
  global_context.length - INPUT_SEQUENCE_LENGTH

/-- Source lines 226-233: slice the context prefix
`global_context[: step + INPUT_SEQUENCE_LENGTH]`, build
`torch.zeros([L - len(prefix) - 1, 1])` — which raises when the
requested dimension is negative, modelled by `none` — concatenate and
flatten to a single row. -/
def buildContextStep (global_context : List Int) (step : Nat) :
    Option (List Int) :=
  let read_step_context := global_context.take (step + INPUT_SEQUENCE_LENGTH)
  let pad_len : Int :=
    (global_context.length : Int) - (read_step_context.length : Int) - 1
  if pad_len < 0 then none
  else some (read_step_context ++ List.replicate pad_len.toNat 0)

/-- Source lines 268-271: append the new prediction to
`updated_predictions` and advance the window by dropping the oldest
snapshot (`current_positions[:, 1:]`) and appending the prediction. -/
def advance {P : Type} (st : RolloutState P) (next_position : List P) :
    RolloutState P :=
  { current_positions := st.current_positions.drop 1 ++ [next_position]
    updated_predictions := st.updated_predictions ++ [next_position] }

/-- One iteration of the rollout loop (source lines 220-271).  When
`global_context` is `None` the source sets `global_context_step =
None` (lines 222-224) and then evaluates
`global_context_step.to(device)` at line 245, which raises
`AttributeError` on `None` before the simulator is invoked: modelled
as `none`.  Otherwise the context row is built (fallible, lines
226-233), the simulator is invoked (line 235), the kinematic mask is
computed (line 248) but never applied — the commented-out masking at
lines 256-265 is absent — and `next_position = predict_positions`
(line 266) is fed back unchanged. -/
def loopBody {P G : Type} (sim : Simulator P G) (graph : G)
    (particle_type : List Nat) (global_context : Option (List Int))
    (step : Nat) (st : RolloutState P) : Option (RolloutState P) :=
  match global_context with
  | none => none
  | some gc =>
    match buildContextStep gc step with
    | none => none
    | some global_context_step =>
      match sim st.current_positions graph particle_type global_context_step with
      | none => none
      | some predict_positions =>
        let _kinematic_mask := get_kinematic_mask particle_type
        let next_position := predict_positions
        some (advance st next_position)

/-- The rollout loop `for step in range(num_steps)` (source line 220),
begun at step index `step` with `n` iterations remaining; a raising
iteration aborts the whole loop. -/
def runSteps {P G : Type} (sim : Simulator P G) (graph : G)
    (particle_type : List Nat) (global_context : Option (List Int)) :
    Nat → Nat → RolloutState P → Option (RolloutState P)
  | _, 0, st => some st
  | step, n + 1, st =>
    match loopBody sim graph particle_type global_context step st with
    | none => none
    | some st' => runSteps sim graph particle_type global_context (step + 1) n st'

/-- The serialized per-example record `rollout_op` (source lines
284-295): the five keys `initial_positions`, `predicted_rollout`,
`particle_types`, `global_context` and `metadata` (dataset metadata of
opaque type `M`, passed through verbatim). -/
structure RolloutRecord (P M : Type) where
  initial_positions : List (List P)
  predicted_rollout : List (List P)
  particle_types : List Nat
  global_context : List Int
  metadata : M
deriving DecidableEq

/-- One example's processing (source lines 197-295): read
`initial_positions = features["position"][:, :INPUT_SEQUENCE_LENGTH]`,
read the global context — `features["step_context"].to(device)` at
line 201 raises `AttributeError` when the context is absent (`None`),
as would `.shape` at lines 203 and 211, modelled as `none` — derive
`num_steps`, run the rollout from the initial window with an empty
prediction list, and assemble the record. -/
def Inference_example {P G M : Type} (sim : Simulator P G) (metadata : M)
    (features : Features P G) : Option (RolloutRecord P M) :=
  match features.step_context with
  | none => none
  | some global_context =>
    let initial_positions := features.position.take INPUT_SEQUENCE_LENGTH
    let num_steps := numRolloutSteps global_context
    match runSteps sim features.graph features.particle_type
        (some global_context) 0 num_steps
        { current_positions := initial_positions, updated_predictions := [] } with
    | none => none
    | some st =>
      some { initial_positions := initial_positions
             predicted_rollout := st.updated_predictions
             particle_types := features.particle_type
             global_context := global_context
             metadata := metadata }

/-- File-system model: the set of existing directories and the log of
file writes in order; a later write to the same name shadows an
earlier one (opening with mode `"w"` truncates: last writer wins). -/
structure FileSystem (R : Type) where
  dirs : List String
  files : List (String × R)
deriving DecidableEq

/-- Source lines 298-299: `os.makedirs` guarded by
`os.path.exists`. -/
def ensureDir {R : Type} (fs : FileSystem R) (d : String) : FileSystem R :=
  if d ∈ fs.dirs then fs else { fs with dirs := d :: fs.dirs }

/-- Source lines 300-301: `open(filename, "w")` followed by
`json.dump`. -/
def writeFile {R : Type} (fs : FileSystem R) (name : String) (r : R) :
    FileSystem R :=
  { fs with files := fs.files ++ [(name, r)] }

/-- The record an observer reads back under `name`: the last write to
that name, if any. -/
def readFile {R : Type} (fs : FileSystem R) (name : String) : Option R :=
  ((fs.files.filter (fun e => e.1 == name)).getLast?).map (fun e => e.2)

/-- Source line 296: the rollout filename interpolated from the split
name and the example index. -/
def rolloutFilename (eval_split : String) (example_index : Nat) : String :=
  "rollout_" ++ eval_split ++ "_" ++ toString example_index ++ ".json"

/-- Source line 297: `os.path.join(C.output_path, filename)`. -/
def joinPath (dir file : String) : String :=
  dir ++ "/" ++ file

/-- The dataset loop (source lines 156, 296-303): examples processed
in iteration order with `example_index` starting at 0; each completed
example ensures the output directory exists and writes exactly one
record; an exception raised inside an example's rollout propagates
(there is no `try`/`except`), aborting the whole loop and leaving the
file system as already written. -/
def Inference_loop {P G M : Type} (sim : Simulator P G) (metadata : M)
    (eval_split output_path : String) :
    List (Features P G) → Nat → FileSystem (RolloutRecord P M) →
      FileSystem (RolloutRecord P M)
  | [], _, fs => fs
  | features :: rest, example_index, fs =>
    match Inference_example sim metadata features with
    | none => fs
    | some rollout_op =>
      let filename := joinPath output_path (rolloutFilename eval_split example_index)
      let fs1 := ensureDir fs output_path
      let fs2 := writeFile fs1 filename rollout_op
      Inference_loop sim metadata eval_split output_path rest (example_index + 1) fs2

/-- A simulator that always predicts the same single-particle
snapshot; used to evaluate the model on concrete inputs. -/
def simConst : Simulator Int Unit :=
  fun _ _ _ _ => some [7]

/-- A simulator that raises exactly on particle-type vector `[99]`;
used to exercise the failure path on concrete inputs. -/
def simFailOn99 : Simulator Int Unit :=
  fun _ _ particle_type _ => if particle_type == [99] then none else some [7]

/-- Concrete example 0: ten single-particle snapshots, particle type
metal, context of length 6 (hence one rollout step). -/
def exZero : Features Int Unit :=
  { position := List.replicate 10 [0]
    particle_type := [2]
    step_context := some [0, 0, 0, 0, 0, 0]
    graph := () }

/-- Concrete example whose particle-type vector makes `simFailOn99`
raise. -/
def exBad : Features Int Unit :=
  { position := List.replicate 10 [0]
    particle_type := [99]
    step_context := some [0, 0, 0, 0, 0, 0]
    graph := () }

/-- Concrete example 2, identical to example 0. -/
def exTwo : Features Int Unit :=
  { position := List.replicate 10 [0]
    particle_type := [2]
    step_context := some [0, 0, 0, 0, 0, 0]
    graph := () }

/-- The empty file system. -/
def fsEmpty : FileSystem (RolloutRecord Int Unit) :=
  { dirs := [], files := [] }

/-! ### Helper lemmas -/

/-- Characterization of the context builder on an in-range step: the
prefix of length `step + INPUT_SEQUENCE_LENGTH` followed by zeros up
to total length `L - 1`. -/
theorem buildContextStep_eq (gc : List Int) (k : Nat)
    (h : k + INPUT_SEQUENCE_LENGTH < gc.length) :
    buildContextStep gc k =
      some (gc.take (k + INPUT_SEQUENCE_LENGTH) ++
        List.replicate (gc.length - 1 - (k + INPUT_SEQUENCE_LENGTH)) 0) := by
  have hlen : (gc.take (k + INPUT_SEQUENCE_LENGTH)).length
      = k + INPUT_SEQUENCE_LENGTH := by
    rw [List.length_take]
    omega
  simp only [buildContextStep]
  rw [if_neg (by omega)]
  have hpad : ((gc.length : Int)
        - ((gc.take (k + INPUT_SEQUENCE_LENGTH)).length : Int) - 1).toNat
      = gc.length - 1 - (k + INPUT_SEQUENCE_LENGTH) := by omega
  rw [hpad]

/-- The context builder fails exactly when the requested zero-pad
dimension is negative. -/
theorem buildContextStep_eq_none (gc : List Int) (k : Nat)
    (h : (gc.length : Int)
        - ((gc.take (k + INPUT_SEQUENCE_LENGTH)).length : Int) - 1 < 0) :
    buildContextStep gc k = none := by
  simp only [buildContextStep]
  rw [if_pos h]

/-- Inversion of a successful loop iteration: the context was present,
the context row was built, the simulator returned a prediction, and
the state advanced with that prediction. -/
theorem loopBody_some {P G : Type} {sim : Simulator P G} {graph : G}
    {particle_type : List Nat} {global_context : Option (List Int)}
    {step : Nat} {st st' : RolloutState P}
    (h : loopBody sim graph particle_type global_context step st = some st') :
    ∃ gc ctx p, global_context = some gc
      ∧ buildContextStep gc step = some ctx
      ∧ sim st.current_positions graph particle_type ctx = some p
      ∧ st' = advance st p := by
  cases global_context with
  | none => simp [loopBody] at h
  | some gc =>
    cases hb : buildContextStep gc step with
    | none => simp [loopBody, hb] at h
    | some ctx =>
      cases hs : sim st.current_positions graph particle_type ctx with
      | none => simp [loopBody, hb, hs] at h
      | some p =>
        refine ⟨gc, ctx, p, rfl, hb, hs, ?_⟩
        simp [loopBody, hb, hs] at h
        exact h.symm

/-- Peeling the last iteration off a rollout of `n + 1` steps. -/
theorem runSteps_snoc {P G : Type} (sim : Simulator P G) (graph : G)
    (particle_type : List Nat) (global_context : Option (List Int))
    (s n : Nat) (st : RolloutState P) :
    runSteps sim graph particle_type global_context s (n + 1) st =
      match runSteps sim graph particle_type global_context s n st with
      | none => none
      | some st' => loopBody sim graph particle_type global_context (s + n) st' := by
  induction n generalizing s st with
  | zero =>
    simp only [runSteps]
    cases h : loopBody sim graph particle_type global_context s st <;> simp [h]
  | succ n ih =>
    have hidx : s + (n + 1) = s + 1 + n := by omega
    conv_lhs => rw [runSteps]
    conv_rhs => rw [runSteps]
    cases h : loopBody sim graph particle_type global_context s st with
    | none => rfl
    | some st1 =>
      show runSteps sim graph particle_type global_context (s + 1) (n + 1) st1 =
        match runSteps sim graph particle_type global_context (s + 1) n st1 with
        | none => none
        | some st' => loopBody sim graph particle_type global_context (s + (n + 1)) st'
      rw [ih (s + 1) st1, hidx]

/-- A list with one element appended ends in that element. -/
theorem getLast?_snoc {α : Type} (l : List α) (a : α) :
    (l ++ [a]).getLast? = some a := by
  rw [List.getLast?_append_cons]
  rfl

/-! ### Claim theorems -/

/-- Claim C1: for every rollout step `k` (0-based) with a present
global-context sequence of length `L`, the context vector passed to
the simulator equals the prefix of the context sequence of length
`k + INPUT_SEQUENCE_LENGTH` concatenated with exactly
`L - 1 - (k + INPUT_SEQUENCE_LENGTH)` zeros, a single row of length
`L - 1`; at the final step `k = numRolloutSteps - 1` the padding
length is 0. -/
theorem context_vector_spec {P G : Type} (sim : Simulator P G) (graph : G)
    (particle_type : List Nat) (gc : List Int) (k : Nat)
    (st : RolloutState P) (hk : k < numRolloutSteps gc) :
    buildContextStep gc k =
      some (gc.take (k + INPUT_SEQUENCE_LENGTH) ++
        List.replicate (gc.length - 1 - (k + INPUT_SEQUENCE_LENGTH)) 0)
    ∧ (∀ v, buildContextStep gc k = some v → v.length = gc.length - 1)
    ∧ (k + 1 = numRolloutSteps gc →
        gc.length - 1 - (k + INPUT_SEQUENCE_LENGTH) = 0)
    ∧ loopBody sim graph particle_type (some gc) k st =
        Option.map (advance st)
          (sim st.current_positions graph particle_type
            (gc.take (k + INPUT_SEQUENCE_LENGTH) ++
              List.replicate (gc.length - 1 - (k + INPUT_SEQUENCE_LENGTH)) 0)) := by
  have hkW : k + INPUT_SEQUENCE_LENGTH < gc.length := by
    unfold numRolloutSteps at hk
    omega
  have hb := buildContextStep_eq gc k hkW
  refine ⟨hb, ?_, ?_, ?_⟩
  · intro v hv
    rw [hb] at hv
    obtain rfl : _ = v := Option.some.inj hv
    simp only [List.length_append, List.length_take, List.length_replicate]
    omega
  · intro hfin
    unfold numRolloutSteps at hfin
    omega
  · simp only [loopBody, hb]
    cases hs : sim st.current_positions graph particle_type
        (gc.take (k + INPUT_SEQUENCE_LENGTH) ++
          List.replicate (gc.length - 1 - (k + INPUT_SEQUENCE_LENGTH)) 0) with
    | none => rfl
    | some p => rfl

/-- Witness for C1 at the final step of a length-8 context
(`numRolloutSteps = 3`, `k = 2`, padding length 0). -/
theorem context_vector_spec_witness :
    2 < numRolloutSteps [1, 2, 3, 4, 5, 6, 7, 8]
    ∧ (buildContextStep [1, 2, 3, 4, 5, 6, 7, 8] 2 =
        some (List.take (2 + INPUT_SEQUENCE_LENGTH) [1, 2, 3, 4, 5, 6, 7, 8] ++
          List.replicate
            ([1, 2, 3, 4, 5, 6, 7, 8].length - 1 - (2 + INPUT_SEQUENCE_LENGTH)) 0)
      ∧ (∀ v, buildContextStep [1, 2, 3, 4, 5, 6, 7, 8] 2 = some v →
          v.length = [1, 2, 3, 4, 5, 6, 7, 8].length - 1)
      ∧ (2 + 1 = numRolloutSteps [1, 2, 3, 4, 5, 6, 7, 8] →
          [1, 2, 3, 4, 5, 6, 7, 8].length - 1 - (2 + INPUT_SEQUENCE_LENGTH) = 0)
      ∧ loopBody simConst () [2] (some [1, 2, 3, 4, 5, 6, 7, 8]) 2
            ⟨List.replicate 5 [0], []⟩ =
          Option.map (advance ⟨List.replicate 5 [0], []⟩)
            (simConst (List.replicate 5 [0]) () [2]
              (List.take (2 + INPUT_SEQUENCE_LENGTH) [1, 2, 3, 4, 5, 6, 7, 8] ++
                List.replicate
                  ([1, 2, 3, 4, 5, 6, 7, 8].length - 1 - (2 + INPUT_SEQUENCE_LENGTH))
                  0))) :=
  ⟨by decide,
   context_vector_spec simConst () [2] [1, 2, 3, 4, 5, 6, 7, 8] 2
     ⟨List.replicate 5 [0], []⟩ (by decide)⟩

/-- Claim C7: under the engine's own derivation
`numRolloutSteps = L - INPUT_SEQUENCE_LENGTH`, the zero-padding
dimension is nonnegative at every in-range step, so the zero-tensor
construction succeeds and its failure branch is unreachable; a
negative padding dimension is a fatal error (`none`), never a silent
truncation. -/
theorem padding_never_negative (gc : List Int) (k : Nat) :
    (k < numRolloutSteps gc →
      buildContextStep gc k =
        some (gc.take (k + INPUT_SEQUENCE_LENGTH) ++
          List.replicate (gc.length - 1 - (k + INPUT_SEQUENCE_LENGTH)) 0))
    ∧ ((gc.length : Int)
          - ((gc.take (k + INPUT_SEQUENCE_LENGTH)).length : Int) - 1 < 0 →
        buildContextStep gc k = none) := by
  constructor
  · intro hk
    refine buildContextStep_eq gc k ?_
    unfold numRolloutSteps at hk
    omega
  · intro h
    exact buildContextStep_eq_none gc k h

/-- Witness for C7: a length-6 context at step 0 succeeds with padding
length 0; a length-3 context (shorter than the window) at step 0 has
negative padding dimension and fails. -/
theorem padding_never_negative_witness :
    buildContextStep [1, 2, 3, 4, 5, 6] 0 =
      some (List.take (0 + INPUT_SEQUENCE_LENGTH) [1, 2, 3, 4, 5, 6] ++
        List.replicate
          ([1, 2, 3, 4, 5, 6].length - 1 - (0 + INPUT_SEQUENCE_LENGTH)) 0)
    ∧ buildContextStep [1, 2, 3] 0 = none :=
  ⟨(padding_never_negative [1, 2, 3, 4, 5, 6] 0).1 (by decide),
   (padding_never_negative [1, 2, 3] 0).2 (by decide)⟩

/-- Claim C2: after every step of the rollout loop, the sliding window
`current_positions` contains exactly `INPUT_SEQUENCE_LENGTH` snapshots,
its last entry equals the most recently appended prediction, and the
step advanced the window by dropping the oldest snapshot and appending
the new prediction (`advance`). -/
theorem window_invariant {P G : Type} (sim : Simulator P G) (graph : G)
    (particle_type : List Nat) (global_context : Option (List Int))
    (init : List (List P)) (hinit : init.length = INPUT_SEQUENCE_LENGTH)
    (k : Nat) (stk : RolloutState P)
    (hrun : runSteps sim graph particle_type global_context 0 k
        ⟨init, []⟩ = some stk) :
    stk.current_positions.length = INPUT_SEQUENCE_LENGTH
    ∧ (1 ≤ k →
        stk.current_positions.getLast? = stk.updated_predictions.getLast?
        ∧ ∃ st' next, runSteps sim graph particle_type global_context 0 (k - 1)
              ⟨init, []⟩ = some st'
            ∧ stk = advance st' next) := by
  induction k generalizing stk with
  | zero =>
    obtain rfl : _ = stk := Option.some.inj hrun
    exact ⟨hinit, fun h => absurd h (by decide)⟩
  | succ k ih =>
    rw [runSteps_snoc] at hrun
    cases hmid : runSteps sim graph particle_type global_context 0 k
        ⟨init, []⟩ with
    | none =>
      rw [hmid] at hrun
      cases hrun
    | some st' =>
      rw [hmid] at hrun
      have hrun' : loopBody sim graph particle_type global_context (0 + k) st'
          = some stk := hrun
      obtain ⟨gc, ctx, p, hgc, hb, hs, rfl⟩ := loopBody_some hrun'
      have hlen' : st'.current_positions.length = INPUT_SEQUENCE_LENGTH :=
        (ih st' hmid).1
      refine ⟨?_, fun _ => ⟨?_, st', p, by simpa using hmid, rfl⟩⟩
      · show (st'.current_positions.drop 1 ++ [p]).length = INPUT_SEQUENCE_LENGTH
        rw [List.length_append, List.length_drop]
        simp only [INPUT_SEQUENCE_LENGTH] at hlen' ⊢
        simp only [List.length_singleton]
        omega
      · show (st'.current_positions.drop 1 ++ [p]).getLast?
            = (st'.updated_predictions ++ [p]).getLast?
        rw [getLast?_snoc, getLast?_snoc]

/-- Witness for C2: one step of a concrete rollout; the window keeps
length 5 and ends in the step's prediction `[7]`. -/
theorem window_invariant_witness :
    (List.replicate 5 ([0] : List Int)).length = INPUT_SEQUENCE_LENGTH
    ∧ runSteps simConst () [2] (some [1, 2, 3, 4, 5, 6]) 0 1
        ⟨List.replicate 5 [0], []⟩ =
        some ⟨List.replicate 4 [0] ++ [[7]], [[7]]⟩
    ∧ ((⟨List.replicate 4 [0] ++ [[7]], [[7]]⟩ :
          RolloutState Int).current_positions.length = INPUT_SEQUENCE_LENGTH
      ∧ (1 ≤ 1 →
          (⟨List.replicate 4 [0] ++ [[7]], [[7]]⟩ :
              RolloutState Int).current_positions.getLast?
            = (⟨List.replicate 4 [0] ++ [[7]], [[7]]⟩ :
              RolloutState Int).updated_predictions.getLast?
          ∧ ∃ st' next, runSteps simConst () [2] (some [1, 2, 3, 4, 5, 6]) 0 (1 - 1)
                ⟨List.replicate 5 [0], []⟩ = some st'
              ∧ (⟨List.replicate 4 [0] ++ [[7]], [[7]]⟩ : RolloutState Int)
                  = advance st' next)) :=
  ⟨by decide, by decide,
   window_invariant simConst () [2] (some [1, 2, 3, 4, 5, 6])
     (List.replicate 5 [0]) (by decide) 1
     ⟨List.replicate 4 [0] ++ [[7]], [[7]]⟩ (by decide)⟩

/-- Construction of a successful loop iteration from a built context
row and a successful simulator call. -/
theorem loopBody_eq_some {P G : Type} {sim : Simulator P G} {graph : G}
    {particle_type : List Nat} {gc ctx : List Int} {step : Nat}
    {st : RolloutState P} {p : List P}
    (hb : buildContextStep gc step = some ctx)
    (hp : sim st.current_positions graph particle_type ctx = some p) :
    loopBody sim graph particle_type (some gc) step st = some (advance st p) := by
  simp [loopBody, hb, hp]

/-- When the context is long enough for every remaining step and the
simulator never raises, the rollout completes. -/
theorem runSteps_total {P G : Type} (sim : Simulator P G) (graph : G)
    (particle_type : List Nat) (gc : List Int)
    (hsim : ∀ w c, sim w graph particle_type c ≠ none) :
    ∀ (n s : Nat) (st : RolloutState P), s + n ≤ numRolloutSteps gc →
      runSteps sim graph particle_type (some gc) s n st ≠ none := by
  intro n
  induction n with
  | zero =>
    intro s st _ h
    cases h
  | succ n ih =>
    intro s st hle
    have hkW : s + INPUT_SEQUENCE_LENGTH < gc.length := by
      unfold numRolloutSteps at hle
      omega
    have hb := buildContextStep_eq gc s hkW
    cases hp : sim st.current_positions graph particle_type
        (gc.take (s + INPUT_SEQUENCE_LENGTH) ++
          List.replicate (gc.length - 1 - (s + INPUT_SEQUENCE_LENGTH)) 0) with
    | none => exact absurd hp (hsim _ _)
    | some p =>
      have hLB := loopBody_eq_some hb hp
      show (match loopBody sim graph particle_type (some gc) s st with
        | none => none
        | some st' =>
            runSteps sim graph particle_type (some gc) (s + 1) n st') ≠ none
      rw [hLB]
      exact ih (s + 1) (advance st p) (by omega)

/-- Each completed iteration appends exactly one prediction: a rollout
of `n` steps extends the prediction list by a tail of length `n`. -/
theorem runSteps_predictions {P G : Type} (sim : Simulator P G) (graph : G)
    (particle_type : List Nat) (global_context : Option (List Int)) :
    ∀ (n s : Nat) (st st' : RolloutState P),
      runSteps sim graph particle_type global_context s n st = some st' →
      ∃ tail, st'.updated_predictions = st.updated_predictions ++ tail
        ∧ tail.length = n := by
  intro n
  induction n with
  | zero =>
    intro s st st' h
    obtain rfl : st = st' := Option.some.inj h
    exact ⟨[], by simp, rfl⟩
  | succ n ih =>
    intro s st st' h
    cases hLB : loopBody sim graph particle_type global_context s st with
    | none =>
      have h' : (none : Option (RolloutState P)) = some st' := by
        rw [← h]
        show _ = (match loopBody sim graph particle_type global_context s st with
          | none => none
          | some st1 => runSteps sim graph particle_type global_context (s + 1) n st1)
        rw [hLB]
      cases h'
    | some st1 =>
      have h' : runSteps sim graph particle_type global_context (s + 1) n st1
          = some st' := by
        rw [← h]
        show _ = (match loopBody sim graph particle_type global_context s st with
          | none => none
          | some stm => runSteps sim graph particle_type global_context (s + 1) n stm)
        rw [hLB]
      obtain ⟨tail, htail, hlen⟩ := ih (s + 1) st1 st' h'
      obtain ⟨gc, ctx, p, hgc, hb, hs, rfl⟩ := loopBody_some hLB
      refine ⟨p :: tail, ?_, by simpa using hlen⟩
      rw [htail]
      show st.updated_predictions ++ [p] ++ tail = _
      rw [List.append_assoc]
      rfl

/-- A rollout of `m + n` steps is the rollout of the first `m` steps
followed by the rollout of the remaining `n`. -/
theorem runSteps_add {P G : Type} (sim : Simulator P G) (graph : G)
    (particle_type : List Nat) (global_context : Option (List Int)) :
    ∀ (m n s : Nat) (st : RolloutState P),
      runSteps sim graph particle_type global_context s (m + n) st =
        match runSteps sim graph particle_type global_context s m st with
        | none => none
        | some st' => runSteps sim graph particle_type global_context (s + m) n st' := by
  intro m
  induction m with
  | zero =>
    intro n s st
    rw [Nat.zero_add]
    rfl
  | succ m ih =>
    intro n s st
    have hcount : m + 1 + n = (m + n) + 1 := by omega
    rw [hcount]
    have hunfold1 : runSteps sim graph particle_type global_context s ((m + n) + 1) st
        = match loopBody sim graph particle_type global_context s st with
          | none => none
          | some st1 =>
              runSteps sim graph particle_type global_context (s + 1) (m + n) st1 := rfl
    have hunfold2 : runSteps sim graph particle_type global_context s (m + 1) st
        = match loopBody sim graph particle_type global_context s st with
          | none => none
          | some st1 =>
              runSteps sim graph particle_type global_context (s + 1) m st1 := rfl
    rw [hunfold1, hunfold2]
    cases hLB : loopBody sim graph particle_type global_context s st with
    | none => rfl
    | some st1 =>
      show runSteps sim graph particle_type global_context (s + 1) (m + n) st1 =
        match runSteps sim graph particle_type global_context (s + 1) m st1 with
        | none => none
        | some st' =>
            runSteps sim graph particle_type global_context (s + (m + 1)) n st'
      rw [ih n (s + 1) st1]
      have hidx : s + 1 + m = s + (m + 1) := by omega
      rw [hidx]

/-- Claim C3: with a present global-context sequence of length `L`,
the rollout executes exactly `numRolloutSteps = L -
INPUT_SEQUENCE_LENGTH` steps (assuming the simulator never raises),
and the terminal prediction list has exactly one snapshot per step, in
chronological order: the list after `k` steps is the length-`k` prefix
of the terminal list, for every `k`. -/
theorem trajectory_length {P G : Type} (sim : Simulator P G) (graph : G)
    (particle_type : List Nat) (gc : List Int) (init : List (List P))
    (hsim : ∀ w c, sim w graph particle_type c ≠ none) :
    numRolloutSteps gc = gc.length - INPUT_SEQUENCE_LENGTH
    ∧ ∃ stFin, runSteps sim graph particle_type (some gc) 0 (numRolloutSteps gc)
          ⟨init, []⟩ = some stFin
        ∧ stFin.updated_predictions.length = numRolloutSteps gc
        ∧ ∀ k, k ≤ numRolloutSteps gc → ∃ stk,
            runSteps sim graph particle_type (some gc) 0 k ⟨init, []⟩ = some stk
            ∧ stk.updated_predictions.length = k
            ∧ stk.updated_predictions = stFin.updated_predictions.take k := by
  refine ⟨rfl, ?_⟩
  have htot := runSteps_total sim graph particle_type gc hsim
      (numRolloutSteps gc) 0 ⟨init, []⟩ (by omega)
  cases hfin : runSteps sim graph particle_type (some gc) 0 (numRolloutSteps gc)
      ⟨init, []⟩ with
  | none => exact absurd hfin htot
  | some stFin =>
    obtain ⟨tailF, htailF, hlenF⟩ :=
      runSteps_predictions sim graph particle_type (some gc) _ _ _ _ hfin
    have hlenFin : stFin.updated_predictions.length = numRolloutSteps gc := by
      rw [htailF]
      simpa using hlenF
    refine ⟨stFin, rfl, hlenFin, ?_⟩
    intro k hk
    have htotk := runSteps_total sim graph particle_type gc hsim k 0
        ⟨init, []⟩ (by omega)
    cases hks : runSteps sim graph particle_type (some gc) 0 k ⟨init, []⟩ with
    | none => exact absurd hks htotk
    | some stk =>
      obtain ⟨tailk, htailk, hlenk⟩ :=
        runSteps_predictions sim graph particle_type (some gc) _ _ _ _ hks
      have hlenStk : stk.updated_predictions.length = k := by
        rw [htailk]
        simpa using hlenk
      refine ⟨stk, rfl, hlenStk, ?_⟩
      have hsplit := runSteps_add sim graph particle_type (some gc) k
          (numRolloutSteps gc - k) 0 ⟨init, []⟩
      rw [show k + (numRolloutSteps gc - k) = numRolloutSteps gc from by omega,
        hfin, hks] at hsplit
      have hrest : runSteps sim graph particle_type (some gc) (0 + k)
          (numRolloutSteps gc - k) stk = some stFin := hsplit.symm
      obtain ⟨tail2, htail2, _⟩ :=
        runSteps_predictions sim graph particle_type (some gc) _ _ _ _ hrest
      rw [htail2, ← hlenStk, List.take_left]

/-- Witness for C3: a concrete rollout over a length-6 context runs
exactly one step and produces one prediction. -/
theorem trajectory_length_witness :
    (∀ w c, simConst w () [2] c ≠ none)
    ∧ (numRolloutSteps [1, 2, 3, 4, 5, 6]
        = [1, 2, 3, 4, 5, 6].length - INPUT_SEQUENCE_LENGTH
      ∧ ∃ stFin, runSteps simConst () [2] (some [1, 2, 3, 4, 5, 6]) 0
            (numRolloutSteps [1, 2, 3, 4, 5, 6])
            ⟨List.replicate 5 [0], []⟩ = some stFin
          ∧ stFin.updated_predictions.length = numRolloutSteps [1, 2, 3, 4, 5, 6]
          ∧ ∀ k, k ≤ numRolloutSteps [1, 2, 3, 4, 5, 6] → ∃ stk,
              runSteps simConst () [2] (some [1, 2, 3, 4, 5, 6]) 0 k
                  ⟨List.replicate 5 [0], []⟩ = some stk
              ∧ stk.updated_predictions.length = k
              ∧ stk.updated_predictions = stFin.updated_predictions.take k) :=
  ⟨fun w c => by simp [simConst],
   trajectory_length simConst () [2] [1, 2, 3, 4, 5, 6] (List.replicate 5 [0])
     (fun w c => by simp [simConst])⟩

/-- Claim C4 (code bug): for an example whose global-context sequence
is absent, the source crashes before completing any rollout step —
`features["step_context"].to(device)` (line 201) raises
`AttributeError` on `None`, as would `.shape` at lines 203 and 211,
and even the loop's own `None` branch (lines 222-224) would raise at
line 245 via `global_context_step.to(device)` — so the engine never
invokes the simulator with a null context; the whole example's
processing fails (`none`). -/
theorem no_context_path_crashes {P G M : Type} (sim : Simulator P G)
    (metadata : M) (position : List (List P)) (particle_type : List Nat)
    (graph : G) :
    Inference_example sim metadata
      { position := position, particle_type := particle_type,
        step_context := none, graph := graph } = none := rfl

/-- Claim C6 (mask modelled from the spec): at a rollout step the
engine computes the kinematic mask from the particle types but never
applies it: the snapshot appended to the trajectory and fed back into
the window equals the simulator's predicted position unchanged — also
at every index where `get_kinematic_mask` is true (kinematic/anchor
particles). -/
theorem kinematic_mask_never_applied {P G : Type} (sim : Simulator P G)
    (graph : G) (particle_type : List Nat) (gc : List Int) (k : Nat)
    (st : RolloutState P) (ctx : List Int) (p : List P)
    (hctx : buildContextStep gc k = some ctx)
    (hp : sim st.current_positions graph particle_type ctx = some p) :
    loopBody sim graph particle_type (some gc) k st =
      some { current_positions := st.current_positions.drop 1 ++ [p]
             updated_predictions := st.updated_predictions ++ [p] }
    ∧ ∀ i : Nat, (get_kinematic_mask particle_type)[i]? = some true →
        (st.updated_predictions ++ [p]).getLast? = some p := by
  refine ⟨loopBody_eq_some hctx hp, ?_⟩
  intro i _
  exact getLast?_snoc _ _

/-- Witness for C6 with an all-kinematic particle-type vector: the
mask is true at index 0, yet the appended snapshot is the simulator's
prediction `[7]` unchanged. -/
theorem kinematic_mask_never_applied_witness :
    buildContextStep [1, 2, 3, 4, 5, 6] 0 = some [1, 2, 3, 4, 5]
    ∧ simConst (List.replicate 5 [0]) () [KINEMATIC_PARTICLE_ID] [1, 2, 3, 4, 5]
        = some [7]
    ∧ (loopBody simConst () [KINEMATIC_PARTICLE_ID] (some [1, 2, 3, 4, 5, 6]) 0
          ⟨List.replicate 5 [0], []⟩ =
        some { current_positions := (List.replicate 5 ([0] : List Int)).drop 1 ++ [[7]]
               updated_predictions := ([] : List (List Int)) ++ [[7]] }
      ∧ ∀ i : Nat, (get_kinematic_mask [KINEMATIC_PARTICLE_ID])[i]? = some true →
          (([] : List (List Int)) ++ [[7]]).getLast? = some [7]) :=
  ⟨by decide, by decide,
   kinematic_mask_never_applied simConst () [KINEMATIC_PARTICLE_ID]
     [1, 2, 3, 4, 5, 6] 0 ⟨List.replicate 5 [0], []⟩ [1, 2, 3, 4, 5] [7]
     (by decide) (by decide)⟩

/-- Claim C9: the rollout engine introduces no randomness: two runs
over the same example with extensionally equal simulator functions
(identical parameters) produce identical records, hence identical
predicted trajectories. -/
theorem rollout_deterministic {P G M : Type} (sim₁ sim₂ : Simulator P G)
    (metadata : M) (features : Features P G)
    (hsim : ∀ w g t c, sim₁ w g t c = sim₂ w g t c) :
    Inference_example sim₁ metadata features
      = Inference_example sim₂ metadata features := by
  have hs : sim₁ = sim₂ := by
    funext w g t c
    exact hsim w g t c
  rw [hs]

/-- Witness for C9 on a concrete example. -/
theorem rollout_deterministic_witness :
    (∀ w g t c, simConst w g t c = simConst w g t c)
    ∧ Inference_example simConst () exZero = Inference_example simConst () exZero :=
  ⟨fun _ _ _ _ => rfl,
   rollout_deterministic simConst simConst () exZero (fun _ _ _ _ => rfl)⟩

/-- Claim C10: the `initial_positions` value of the serialized record
equals the first `INPUT_SEQUENCE_LENGTH` snapshots of the example's
input position sequence, unmodified: window advancement rebinds
`current_positions` and leaves the stored initial window unchanged. -/
theorem initial_window_preserved {P G M : Type} (sim : Simulator P G)
    (metadata : M) (features : Features P G) (r : RolloutRecord P M)
    (h : Inference_example sim metadata features = some r) :
    r.initial_positions = features.position.take INPUT_SEQUENCE_LENGTH := by
  unfold Inference_example at h
  cases hc : features.step_context with
  | none =>
    rw [hc] at h
    cases h
  | some gc =>
    rw [hc] at h
    have h' : (match runSteps sim features.graph features.particle_type
          (some gc) 0 (numRolloutSteps gc)
          { current_positions := features.position.take INPUT_SEQUENCE_LENGTH,
            updated_predictions := [] } with
      | none => (none : Option (RolloutRecord P M))
      | some st =>
        some { initial_positions := features.position.take INPUT_SEQUENCE_LENGTH
               predicted_rollout := st.updated_predictions
               particle_types := features.particle_type
               global_context := gc
               metadata := metadata }) = some r := h
    cases hr : runSteps sim features.graph features.particle_type (some gc) 0
        (numRolloutSteps gc)
        { current_positions := features.position.take INPUT_SEQUENCE_LENGTH,
          updated_predictions := [] } with
    | none =>
      rw [hr] at h'
      cases h'
    | some st =>
      rw [hr] at h'
      obtain rfl : _ = r := Option.some.inj h'
      rfl

/-- The record produced by the concrete example `exZero` under
`simConst`. -/
def recZero : RolloutRecord Int Unit :=
  { initial_positions := List.replicate 5 [0]
    predicted_rollout := [[7]]
    particle_types := [2]
    global_context := [0, 0, 0, 0, 0, 0]
    metadata := () }

/-- Witness for C10 on a concrete completed example. -/
theorem initial_window_preserved_witness :
    Inference_example simConst () exZero = some recZero
    ∧ recZero.initial_positions = exZero.position.take INPUT_SEQUENCE_LENGTH :=
  ⟨by decide,
   initial_window_preserved simConst () exZero recZero (by decide)⟩

/-- Claim C5 counterexample: with a simulator that raises on the
middle example of three, the first example's written record is intact
— identical to the record a run of the first example alone writes —
but the third example is never processed: no file with its index
exists, refuting "example i+1's rollout still runs". -/
theorem example_independence_cex :
    readFile (Inference_loop simFailOn99 () "test" "out"
        [exZero, exBad, exTwo] 0 fsEmpty)
      (joinPath "out" (rolloutFilename "test" 0))
      = readFile (Inference_loop simFailOn99 () "test" "out" [exZero] 0 fsEmpty)
        (joinPath "out" (rolloutFilename "test" 0))
    ∧ readFile (Inference_loop simFailOn99 () "test" "out"
        [exZero, exBad, exTwo] 0 fsEmpty)
      (joinPath "out" (rolloutFilename "test" 2)) = none := by
  constructor <;> rfl

/-- Claim C5 (amended): a simulator failure during example i's rollout
leaves every earlier example's already-written record intact — the
file system equals the one produced by running only the examples
before i — but it aborts the dataset loop, so example i+1 (and every
later example) is never processed. -/
theorem failure_aborts_loop {P G M : Type} (sim : Simulator P G) (metadata : M)
    (eval_split output_path : String) (es₁ es₂ : List (Features P G))
    (bad : Features P G) (j : Nat) (fs : FileSystem (RolloutRecord P M))
    (hfail : Inference_example sim metadata bad = none) :
    Inference_loop sim metadata eval_split output_path (es₁ ++ bad :: es₂) j fs =
      Inference_loop sim metadata eval_split output_path es₁ j fs := by
  induction es₁ generalizing j fs with
  | nil =>
    show Inference_loop sim metadata eval_split output_path (bad :: es₂) j fs = fs
    simp only [Inference_loop, hfail]
  | cons e rest ih =>
    rw [List.cons_append]
    show (match Inference_example sim metadata e with
      | none => fs
      | some rollout_op =>
        Inference_loop sim metadata eval_split output_path (rest ++ bad :: es₂)
          (j + 1)
          (writeFile (ensureDir fs output_path)
            (joinPath output_path (rolloutFilename eval_split j)) rollout_op))
      = (match Inference_example sim metadata e with
      | none => fs
      | some rollout_op =>
        Inference_loop sim metadata eval_split output_path rest (j + 1)
          (writeFile (ensureDir fs output_path)
            (joinPath output_path (rolloutFilename eval_split j)) rollout_op))
    cases h : Inference_example sim metadata e with
    | none => rfl
    | some r => exact ih (j + 1) _

/-- Witness for C5's amended theorem at a concrete failing middle
example. -/
theorem failure_aborts_loop_witness :
    Inference_example simFailOn99 () exBad = none
    ∧ Inference_loop simFailOn99 () "test" "out" ([exZero] ++ exBad :: [exTwo]) 0
        fsEmpty
      = Inference_loop simFailOn99 () "test" "out" [exZero] 0 fsEmpty :=
  ⟨rfl,
   failure_aborts_loop simFailOn99 () "test" "out" [exZero] [exTwo] exBad 0
     fsEmpty rfl⟩

/-- Creating a directory does not change the files. -/
theorem ensureDir_files {R : Type} (fs : FileSystem R) (d : String) :
    (ensureDir fs d).files = fs.files := by
  unfold ensureDir
  split <;> rfl

/-- Creating a directory makes it exist. -/
theorem mem_ensureDir {R : Type} (fs : FileSystem R) (d : String) :
    d ∈ (ensureDir fs d).dirs := by
  unfold ensureDir
  split
  · assumption
  · exact List.mem_cons_self _ _

/-- The dataset loop never removes a directory. -/
theorem Inference_loop_dirs_mono {P G M : Type} (sim : Simulator P G)
    (metadata : M) (eval_split output_path : String) :
    ∀ (es : List (Features P G)) (j : Nat) (fs : FileSystem (RolloutRecord P M))
      (d : String), d ∈ fs.dirs →
      d ∈ (Inference_loop sim metadata eval_split output_path es j fs).dirs := by
  intro es
  induction es with
  | nil =>
    intro j fs d hd
    exact hd
  | cons e rest ih =>
    intro j fs d hd
    show d ∈ (match Inference_example sim metadata e with
      | none => fs
      | some rollout_op =>
        Inference_loop sim metadata eval_split output_path rest (j + 1)
          (writeFile (ensureDir fs output_path)
            (joinPath output_path (rolloutFilename eval_split j)) rollout_op)).dirs
    cases h : Inference_example sim metadata e with
    | none => exact hd
    | some r =>
      apply ih
      show d ∈ (ensureDir fs output_path).dirs
      unfold ensureDir
      split
      · exact hd
      · exact List.mem_cons_of_mem _ hd

/-- With every example succeeding, the loop appends to the file log
exactly one entry per example, in iteration order, named by the
example's 0-based index and holding its record. -/
theorem Inference_loop_files {P G M : Type} (sim : Simulator P G) (metadata : M)
    (eval_split output_path : String) :
    ∀ (es : List (Features P G)) (j : Nat) (fs : FileSystem (RolloutRecord P M)),
      (∀ f ∈ es, Inference_example sim metadata f ≠ none) →
      (Inference_loop sim metadata eval_split output_path es j fs).files =
        fs.files ++ (List.enumFrom j es).filterMap (fun e =>
          (Inference_example sim metadata e.2).map (fun r =>
            (joinPath output_path (rolloutFilename eval_split e.1), r))) := by
  intro es
  induction es with
  | nil =>
    intro j fs _
    show fs.files = fs.files ++ List.filterMap _ []
    rw [List.filterMap_nil, List.append_nil]
  | cons e rest ih =>
    intro j fs hall
    cases h : Inference_example sim metadata e with
    | none => exact absurd h (hall e (List.mem_cons_self _ _))
    | some r =>
      have hunf : Inference_loop sim metadata eval_split output_path (e :: rest) j fs
          = Inference_loop sim metadata eval_split output_path rest (j + 1)
              (writeFile (ensureDir fs output_path)
                (joinPath output_path (rolloutFilename eval_split j)) r) := by
        show (match Inference_example sim metadata e with
          | none => fs
          | some rollout_op =>
            Inference_loop sim metadata eval_split output_path rest (j + 1)
              (writeFile (ensureDir fs output_path)
                (joinPath output_path (rolloutFilename eval_split j)) rollout_op)) = _
        rw [h]
      rw [hunf, ih (j + 1) _ (fun f hf => hall f (List.mem_cons_of_mem _ hf))]
      show (ensureDir fs output_path).files ++
            [(joinPath output_path (rolloutFilename eval_split j), r)] ++
            (List.enumFrom (j + 1) rest).filterMap _
          = fs.files ++
            List.filterMap _ ((j, e) :: List.enumFrom (j + 1) rest)
      rw [ensureDir_files, List.filterMap_cons, List.append_assoc]
      simp only [h, Option.map_some']
      rfl

/-- Claim C8: with every example completing, the dataset loop persists
exactly one record per example — fields `initial_positions`,
`predicted_rollout`, `particle_types`, `global_context`, `metadata` —
under the deterministic name built by `joinPath` and `rolloutFilename`
from the split name and the example's 0-based iteration index; the
output directory is
created if absent, and a write to an existing name shadows the old
content (last writer wins). -/
theorem serialization_spec {P G M : Type} (sim : Simulator P G) (metadata : M)
    (eval_split output_path : String) (es : List (Features P G))
    (fs : FileSystem (RolloutRecord P M))
    (hall : ∀ f ∈ es, Inference_example sim metadata f ≠ none) :
    (Inference_loop sim metadata eval_split output_path es 0 fs).files =
      fs.files ++ (List.enumFrom 0 es).filterMap (fun e =>
        (Inference_example sim metadata e.2).map (fun r =>
          (joinPath output_path (rolloutFilename eval_split e.1), r)))
    ∧ (es ≠ [] →
        output_path ∈
          (Inference_loop sim metadata eval_split output_path es 0 fs).dirs)
    ∧ (∀ (fs' : FileSystem (RolloutRecord P M)) (name : String)
        (r' : RolloutRecord P M),
        readFile (writeFile fs' name r') name = some r') := by
  refine ⟨Inference_loop_files sim metadata eval_split output_path es 0 fs hall,
    ?_, ?_⟩
  · intro hne
    cases es with
    | nil => exact absurd rfl hne
    | cons e rest =>
      cases h : Inference_example sim metadata e with
      | none => exact absurd h (hall e (List.mem_cons_self _ _))
      | some r =>
        have hunf : Inference_loop sim metadata eval_split output_path
              (e :: rest) 0 fs
            = Inference_loop sim metadata eval_split output_path rest 1
                (writeFile (ensureDir fs output_path)
                  (joinPath output_path (rolloutFilename eval_split 0)) r) := by
          show (match Inference_example sim metadata e with
            | none => fs
            | some rollout_op =>
              Inference_loop sim metadata eval_split output_path rest (0 + 1)
                (writeFile (ensureDir fs output_path)
                  (joinPath output_path (rolloutFilename eval_split 0))
                  rollout_op)) = _
          rw [h]
        rw [hunf]
        apply Inference_loop_dirs_mono
        show output_path ∈ (ensureDir fs output_path).dirs
        exact mem_ensureDir fs output_path
  · intro fs' name r'
    show (((fs'.files ++ [(name, r')]).filter
        (fun e => e.1 == name)).getLast?).map (fun e => e.2) = some r'
    have hfil : List.filter (fun e => e.1 == name) [(name, r')] = [(name, r')] := by
      simp
    rw [List.filter_append, hfil, getLast?_snoc]
    rfl

/-- Witness for C8 on a single concrete example. -/
theorem serialization_spec_witness :
    (∀ f ∈ [exZero], Inference_example simConst () f ≠ none)
    ∧ ((Inference_loop simConst () "test" "out" [exZero] 0 fsEmpty).files =
        fsEmpty.files ++ (List.enumFrom 0 [exZero]).filterMap (fun e =>
          (Inference_example simConst () e.2).map (fun r =>
            (joinPath "out" (rolloutFilename "test" e.1), r)))
      ∧ ([exZero] ≠ [] →
          "out" ∈ (Inference_loop simConst () "test" "out" [exZero] 0 fsEmpty).dirs)
      ∧ (∀ (fs' : FileSystem (RolloutRecord Int Unit)) (name : String)
          (r' : RolloutRecord Int Unit),
          readFile (writeFile fs' name r') name = some r')) :=
  ⟨by decide,
   serialization_spec simConst () "test" "out" [exZero] fsEmpty (by decide)⟩

end VFGNInference
